import Mathlib

/-!
Shallow embedding of the HICHEM repository analyzer (src/hichem.py).

Dictionaries parsed from JSON are modelled as structures with `Option`
fields: `none` means the key is absent.  Functions that can raise an
uncaught exception (a `KeyError` on a missing key, a math domain error,
or an HTTP call that raises) return `Option`: `none` models the
exception propagating to the caller.  Python ints are modelled by `Int`,
Python floats by exact rationals where the source only uses field
arithmetic, and by `Real` where `math.log` is involved.  Timestamps are
modelled as integer seconds; the whole-day difference computed from a
`timedelta` is floor division by 86400.
-/

namespace Hichem

/-- CONFIG max_results: cap on processed search items. -/
def max_results : Nat := 15

/-- CONFIG ranking_weights, key activity. -/
def weight_activity : ℚ := 0.35

/-- CONFIG ranking_weights, key readability. -/
def weight_readability : ℚ := 0.25

/-- CONFIG ranking_weights, key health. -/
def weight_health : ℚ := 0.20

/-- CONFIG ranking_weights, key popularity. -/
def weight_popularity : ℚ := 0.15

/-- CONFIG ranking_weights, key ci_cd. -/
def weight_ci_cd : ℚ := 0.05

/-- The dictionary returned by ProjectAnalyzer.calculate_health on success:
all three keys are always populated. -/
structure Health where
  activity_score : ℚ
  issue_ratio : ℚ
  commit_frequency : ℚ
  deriving DecidableEq

/-- A health sub-object as it may appear inside a parsed JSON record
consumed by HybridRanker.calculate_score; each key may be absent. -/
structure HealthJson where
  activity_score : Option ℚ
  issue_ratio : Option ℚ
  commit_frequency : Option ℚ
  deriving DecidableEq

/-- A readme analysis object: the keys analyze_readme may populate. -/
structure ReadmeJson where
  readme_exists : Option Bool
  readability : Option ℚ
  grade_level : Option String
  sections : Option Nat
  deriving DecidableEq

/-- A metadata sub-object as consumed by calculate_score and built by
HICHEM_Core handling of one repository. -/
structure MetadataJson where
  license : Option (Option String)
  ci_cd : Option Bool
  tests : Option Bool
  deriving DecidableEq

/-- The license object of the detail endpoint response. -/
structure LicenseJson where
  name : Option String
  deriving DecidableEq

/-- A repository record as passed to calculate_health and
calculate_score: the union of keys those functions look up.  `none`
models an absent key, which a subscript lookup turns into a KeyError. -/
structure RepoJson where
  pushed_at : Option ℤ
  closed_issues : Option ℤ
  open_issues : Option ℤ
  commits : Option ℤ
  age_days : Option ℤ
  stargazers_count : Option ℤ
  has_workflows : Option Bool
  has_tests : Option Bool
  license : Option LicenseJson
  health : Option HealthJson
  readme : Option ReadmeJson
  metadata : Option MetadataJson
  deriving DecidableEq

/-- An item of the search result page. -/
structure ItemJson where
  url : Option String
  name : Option String
  description : Option (Option String)
  stargazers_count : Option ℤ
  forks_count : Option ℤ
  full_name : Option String
  deriving DecidableEq

/-- An HTTP response for the raw README fetch. -/
structure Resp where
  status_code : ℤ
  text : String
  deriving DecidableEq

/-- The parsed JSON object of the search endpoint response. -/
structure SearchJson where
  items : Option (List ItemJson)

/-- Whole days elapsed between two timestamps in seconds, as computed by
the days attribute of a Python timedelta (floor division). -/
def delta_days (now pushed_at : ℤ) : ℤ :=
  Int.fdiv (now - pushed_at) 86400

/-- ProjectAnalyzer.calculate_health.  Looks up pushed_at, then builds the
metrics dictionary: the issue ratio reads open_issues first and reads
closed_issues only when open_issues is positive (the conditional
expression short-circuits), and the commit frequency divides by
age_days unless age_days equals zero, in which case it divides by 1
(the Python expression age_days or 1).  A missing key propagates as
`none`: the source has no exception handler here. -/
def calculate_health (now : ℤ) (repo : RepoJson) : Option Health := do
  let pushed ← repo.pushed_at
  let ratio ← do
    let o ← repo.open_issues
    if 0 < o then do
      let c ← repo.closed_issues
      pure ((c : ℚ) / (o : ℚ))
    else
      pure (1 : ℚ)
  let commits ← repo.commits
  let age ← repo.age_days
  pure
    { activity_score := ((max 0 (100 - delta_days now pushed) : ℤ) : ℚ)
      issue_ratio := ratio
      commit_frequency := (commits : ℚ) / (if age = 0 then (1 : ℚ) else (age : ℚ)) }

/-- URL of the raw README file fetched by analyze_readme. -/
def readme_url (full_name : String) : String :=
  "https://raw.githubusercontent.com/" ++ full_name ++ "/main/README.md"

/-- Occurrences of the heading marker character, as counted by the Python
string count method on the hash character. -/
def count_hash (s : String) : Nat :=
  s.toList.countP (fun c => c = '#')

/-- ProjectAnalyzer.analyze_readme.  The HTTP layer is a parameter
`fetch`: `none` models requests.get raising (timeout, connection
error), which the source does not catch.  `flesch` and `text_standard`
model the external textstat library functions.  On a 200 response all
four keys are populated; on any other status only readme_exists, set
to false. -/
def analyze_readme (fetch : String → Option Resp) (flesch : String → ℚ)
    (text_standard : String → String) (item : ItemJson) : Option ReadmeJson := do
  let fn ← item.full_name
  let response ← fetch (readme_url fn)
  if response.status_code = 200 then
    pure
      { readme_exists := some true
        readability := some (flesch response.text)
        grade_level := some (text_standard response.text)
        sections := some (count_hash response.text) }
  else
    pure { readme_exists := some false, readability := none, grade_level := none, sections := none }

/-- Entry activity of the components dictionary of
HybridRanker.calculate_score. -/
def activity_component (repo : RepoJson) : Option ℚ := do
  let h ← repo.health
  let a ← h.activity_score
  pure (a * 0.01)

/-- Entry readability of the components dictionary: the conditional
expression evaluates readme_exists first and reads the readability key
only when the flag is true, otherwise the flat fallback 0.3. -/
def readability_component (repo : RepoJson) : Option ℚ := do
  let r ← repo.readme
  let ex ← r.readme_exists
  if ex then do
    let v ← r.readability
    pure (v * 0.01)
  else
    pure (0.3 : ℚ)

/-- Entry health of the components dictionary. -/
def health_component (repo : RepoJson) : Option ℚ := do
  let h ← repo.health
  let ir ← h.issue_ratio
  let cf ← h.commit_frequency
  pure (ir * 0.5 + cf * 0.5)

/-- Entry popularity of the components dictionary: math.log of the star
count plus one, times 0.4.  math.log raises a domain error on a
non-positive argument, modelled by `none`. -/
noncomputable def popularity_component (repo : RepoJson) : Option ℝ := do
  let s ← repo.stargazers_count
  if 0 < s + 1 then
    pure (Real.log ((s : ℝ) + 1) * 0.4)
  else
    none

/-- Entry ci_cd of the components dictionary. -/
def ci_cd_component (repo : RepoJson) : Option ℚ := do
  let m ← repo.metadata
  let c ← m.ci_cd
  pure (if c then (1 : ℚ) else 0.3)

/-- HybridRanker.calculate_score: the five components are evaluated in
dictionary order, each component is multiplied by its weight and
summed, the total is scaled by 100 and clamped into the interval from
0 to 100.  A missing key propagates as `none`: the source has no
exception handler here. -/
noncomputable def calculate_score (repo : RepoJson) : Option ℝ := do
  let a ← activity_component repo
  let r ← readability_component repo
  let h ← health_component repo
  let p ← popularity_component repo
  let c ← ci_cd_component repo
  let total : ℝ := (a : ℝ) * (weight_activity : ℝ) + (r : ℝ) * (weight_readability : ℝ)
    + (h : ℝ) * (weight_health : ℝ) + p * (weight_popularity : ℝ)
    + (c : ℝ) * (weight_ci_cd : ℝ)
  pure (min (max (total * 100) 0) 100)

/-- The metadata dictionary built for one processed repository. -/
structure Metadata where
  license : Option String
  ci_cd : Bool
  tests : Bool

/-- The enriched dictionary returned by the per-item processing of
HICHEM_Core: on success every key is populated. -/
structure Enriched where
  name : String
  description : Option String
  stars : ℤ
  forks : ℤ
  readme : ReadmeJson
  health : Health
  metadata : Metadata
  score : ℝ

/-- HICHEM_Core repository processing of one search item.  `fetch_detail`
models the detail endpoint call (requests.get followed by json): `none`
is an uncaught exception.  The dictionary entries are evaluated in
source order: the detail fetch, then name, description, star and fork
counts from the item, then analyze_readme on the item, then
calculate_health on the detail record, then the metadata entries
(license via get with defaults, so never raising; has_workflows and
has_tests by subscript), and finally calculate_score applied to the
raw detail record full_data, exactly as in the source. -/
noncomputable def _process_repo (fetch_detail : String → Option RepoJson)
    (fetch_readme : String → Option Resp) (flesch : String → ℚ)
    (text_standard : String → String) (now : ℤ) (item : ItemJson) : Option Enriched := do
  let url ← item.url
  let full_data ← fetch_detail url
  let name ← item.name
  let description ← item.description
  let stars ← item.stargazers_count
  let forks ← item.forks_count
  let readme ← analyze_readme fetch_readme flesch text_standard item
  let health ← calculate_health now full_data
  let license := (full_data.license.getD { name := none }).name
  let ci_cd ← full_data.has_workflows
  let tests ← full_data.has_tests
  let score ← calculate_score full_data
  pure
    { name := name, description := description, stars := stars, forks := forks
      readme := readme, health := health
      metadata := { license := license, ci_cd := ci_cd, tests := tests }
      score := score }

/-- Boolean comparison used to model the Python sorted call with the
score key and reverse order: a precedes b when the score of a is at
least the score of b. -/
noncomputable def score_ge (a b : Enriched) : Bool :=
  @decide (b.score ≤ a.score) (Classical.propDecidable _)

/-- The stable descending sort on score performed at the end of
search_projects: Python sorted is a stable merge sort. -/
noncomputable def sort_by_score (l : List Enriched) : List Enriched :=
  l.mergeSort score_ge

/-- HICHEM_Core.search_projects: fetch the search page (`fetch_search`
models requests.get followed by json, `none` an uncaught exception),
read the items key with an empty default, truncate to max_results,
process the items one at a time appending to a list, and return that
list sorted by score in descending order.  The loop has no exception
handler: a failing item propagates. -/
noncomputable def search_projects (fetch_search : Option SearchJson)
    (fetch_detail : String → Option RepoJson) (fetch_readme : String → Option Resp)
    (flesch : String → ℚ) (text_standard : String → String) (now : ℤ) :
    Option (List Enriched) := do
  let results ← fetch_search
  let processed ← ((results.items.getD []).take max_results).mapM
    (_process_repo fetch_detail fetch_readme flesch text_standard now)
  pure (sort_by_score processed)

/-- A trivial readability model used for concrete inputs. -/
def flesch0 : String → ℚ := fun _ => 0

/-- A trivial grade level model used for concrete inputs. -/
def text_standard0 : String → String := fun _ => ""

/-- A readme fetch that always completes with status 404. -/
def fetch_readme_404 : String → Option Resp := fun _ => some { status_code := 404, text := "" }

/-- A readme fetch that always raises. -/
def fetch_readme_raise : String → Option Resp := fun _ => none

/-- A concrete search item with every key present. -/
def item_one : ItemJson :=
  { url := some "u1", name := some "repo-one", description := some none
    stargazers_count := some 10, forks_count := some 2, full_name := some "owner/one" }

/-- A second concrete search item with every key present. -/
def item_two : ItemJson :=
  { url := some "u2", name := some "repo-two", description := some (some "demo")
    stargazers_count := some 7, forks_count := some 1, full_name := some "owner/two" }

/-- A detail record shaped like a real detail endpoint response: all the
documented detail keys are present, but no health, readme or metadata
sub-object. -/
def detail_no_health : RepoJson :=
  { pushed_at := some 0, closed_issues := some 1, open_issues := some 1, commits := some 5
    age_days := some 10, stargazers_count := some 10, has_workflows := some true
    has_tests := some true, license := some { name := some "MIT" }
    health := none, readme := none, metadata := none }

/-- A record that carries everything calculate_score needs, so scoring it
completes. -/
def detail_scorable : RepoJson :=
  { pushed_at := some 0, closed_issues := some 1, open_issues := some 1, commits := some 5
    age_days := some 10, stargazers_count := some 10, has_workflows := some true
    has_tests := some true, license := some { name := some "MIT" }
    health := some { activity_score := some 50, issue_ratio := some 1, commit_frequency := some 1 }
    readme := some { readme_exists := some false, readability := none, grade_level := none, sections := none }
    metadata := some { license := some (some "MIT"), ci_cd := some true, tests := some true } }

/-- A record with no key at all. -/
def repo_empty : RepoJson :=
  { pushed_at := none, closed_issues := none, open_issues := none, commits := none
    age_days := none, stargazers_count := none, has_workflows := none, has_tests := none
    license := none, health := none, readme := none, metadata := none }

/-- A detail record whose age_days is negative: the or guard of the
source keeps the negative denominator. -/
def detail_neg_age : RepoJson :=
  { pushed_at := some 0, closed_issues := some 0, open_issues := some 0, commits := some 30
    age_days := some (-1), stargazers_count := some 3, has_workflows := some true
    has_tests := some true, license := none, health := none, readme := none, metadata := none }

/-- A detail record missing only pushed_at. -/
def detail_no_pushed : RepoJson :=
  { pushed_at := none, closed_issues := some 1, open_issues := some 1, commits := some 5
    age_days := some 10, stargazers_count := some 10, has_workflows := some true
    has_tests := some true, license := none, health := none, readme := none, metadata := none }

/-- Ten days in seconds: the now timestamp of the end to end scenario,
with the push timestamp at zero. -/
def now_scenario : ℤ := 864000

/-- The detail record of the end to end scenario of the specification:
pushed ten days before now, no open issue, five closed issues, thirty
commits over thirty days, ninety nine stars, workflows present.  As a
real detail response it has no health, readme or metadata sub-object. -/
def detail_scenario : RepoJson :=
  { pushed_at := some 0, closed_issues := some 5, open_issues := some 0, commits := some 30
    age_days := some 30, stargazers_count := some 99, has_workflows := some true
    has_tests := some true, license := some { name := some "MIT" }
    health := none, readme := none, metadata := none }

/-- The search item of the end to end scenario. -/
def item_scenario : ItemJson :=
  { url := some "u5", name := some "proj", description := some (some "demo")
    stargazers_count := some 99, forks_count := some 3, full_name := some "owner/proj" }

/-- The merged record the specification intends the Scorer to receive in
the end to end scenario: the health metrics computed for the scenario
detail, a readme analysis with the existence flag false after the
failed fetch, the metadata of the detail, and the star count. -/
def merged_scenario : RepoJson :=
  { pushed_at := some 0, closed_issues := some 5, open_issues := some 0, commits := some 30
    age_days := some 30, stargazers_count := some 99, has_workflows := some true
    has_tests := some true, license := some { name := some "MIT" }
    health := some { activity_score := some 90, issue_ratio := some 1, commit_frequency := some 1 }
    readme := some { readme_exists := some false, readability := none, grade_level := none, sections := none }
    metadata := some { license := some (some "MIT"), ci_cd := some true, tests := some true } }

/-- A record on which scoring completes, for the range witness. -/
def repo_score_witness : RepoJson := detail_scorable

/-- The score computed on the witness record. -/
noncomputable def score_witness : ℝ := (calculate_score repo_score_witness).getD 0

/-- A search page with one item. -/
def search_one : SearchJson := { items := some [item_one] }

/-- A search page with two items. -/
def search_two : SearchJson := { items := some [item_one, item_two] }

/-- A detail fetch under which the first item yields a raw detail record
(no health sub-object) while the second yields a record scoring would
complete on. -/
def fetch_detail_mixed : String → Option RepoJson :=
  fun u => if u = "u1" then some detail_no_health else some detail_scorable

/-- A detail fetch that raises on the first item only. -/
def fetch_detail_first_raises : String → Option RepoJson :=
  fun u => if u = "u1" then none else some detail_scorable

/-- C1: whenever calculate_score completes on an input record, the
returned score lies in the interval from 0 to 100: the weighted sum is
scaled by 100 and explicitly clamped, however large or negative the
components are. -/
theorem calculate_score_bounded (repo : RepoJson) (x : ℝ)
    (h : calculate_score repo = some x) : 0 ≤ x ∧ x ≤ 100 := by
  simp only [calculate_score, Option.bind_eq_bind, Option.bind_eq_some, Option.pure_def,
    Option.some.injEq] at h
  obtain ⟨a, ha, r, hr, l, hl, p, hp, c, hc, hx⟩ := h
  subst hx
  constructor
  · exact le_min (le_max_right _ _) (by norm_num)
  · exact min_le_right _ _

/-- Witness for C1 at a concrete record on which scoring completes. -/
theorem calculate_score_bounded_witness : 0 ≤ score_witness ∧ score_witness ≤ 100 :=
  calculate_score_bounded repo_score_witness score_witness rfl

/-- C7: whenever the readme analysis of a record has the existence flag
false, the readability component used by calculate_score is exactly
0.3, independent of every other field of the record. -/
theorem readability_component_default (repo : RepoJson) (r : ReadmeJson)
    (h1 : repo.readme = some r) (h2 : r.readme_exists = some false) :
    readability_component repo = some (0.3 : ℚ) := by
  simp [readability_component, h1, h2]

/-- Witness for C7 at the merged scenario record. -/
theorem readability_component_default_witness :
    readability_component merged_scenario = some (0.3 : ℚ) :=
  readability_component_default merged_scenario
    { readme_exists := some false, readability := none, grade_level := none, sections := none }
    rfl rfl

/-- Binding any option against a function that always fails yields the
failure. -/
theorem opt_bind_none {α β : Type} (o : Option α) (f : α → Option β)
    (h : ∀ a, f a = none) : o.bind f = none := by
  cases o <;> simp [h]

/-- C4 amended: calculate_health has no exception handler, so a record
lacking pushed_at, open_issues, commits or age_days, or lacking
closed_issues while open_issues is positive, makes the lookup error
propagate to the caller; no empty metrics object is returned. -/
theorem calculate_health_missing_key_raises (now : ℤ) (repo : RepoJson)
    (h : repo.pushed_at = none ∨ repo.open_issues = none ∨
      (∃ o, repo.open_issues = some o ∧ 0 < o ∧ repo.closed_issues = none) ∨
      repo.commits = none ∨ repo.age_days = none) :
    calculate_health now repo = none := by
  unfold calculate_health
  simp only [Option.bind_eq_bind]
  rcases h with h | h | ⟨o, ho, hpos, hc⟩ | h | h
  · rw [h]; rfl
  · refine opt_bind_none _ _ (fun pushed => ?_)
    rw [h]; rfl
  · refine opt_bind_none _ _ (fun pushed => ?_)
    rw [ho]
    simp only [Option.some_bind]
    rw [if_pos hpos, hc]; rfl
  · refine opt_bind_none _ _ (fun pushed => ?_)
    refine opt_bind_none _ _ (fun o => ?_)
    by_cases hp2 : 0 < o
    · rw [if_pos hp2]
      refine opt_bind_none _ _ (fun c => ?_)
      rw [h]; rfl
    · rw [if_neg hp2]
      rw [h]; rfl
  · refine opt_bind_none _ _ (fun pushed => ?_)
    refine opt_bind_none _ _ (fun o => ?_)
    by_cases hp2 : 0 < o
    · rw [if_pos hp2]
      refine opt_bind_none _ _ (fun c => ?_)
      refine opt_bind_none _ _ (fun y => ?_)
      refine opt_bind_none _ _ (fun commits => ?_)
      rw [h]; rfl
    · rw [if_neg hp2]
      refine opt_bind_none _ _ (fun y => ?_)
      refine opt_bind_none _ _ (fun commits => ?_)
      rw [h]; rfl

/-- Witness for C4 amended at a record missing only pushed_at. -/
theorem calculate_health_missing_key_raises_witness :
    calculate_health 0 detail_no_pushed = none :=
  calculate_health_missing_key_raises 0 detail_no_pushed (Or.inl rfl)

/-- Counterexample to C4 as stated: on a record with none of the required
keys, calculate_health propagates the error instead of returning an
empty metrics object. -/
theorem calculate_health_missing_key_cex : calculate_health 0 repo_empty = none := rfl

/-- C6 amended: on records carrying all required keys, calculate_health
returns exactly the activity score max 0 (100 minus the whole days
since the push, tolerating a future timestamp), the issue ratio
closed over open when open is positive and 1 otherwise, and the
commit frequency commits over age_days except that a zero age is
replaced by 1; a negative age_days is kept as the divisor. -/
theorem calculate_health_complete_formulas (now p c o m a : ℤ) (s : Option ℤ)
    (w t : Option Bool) (lic : Option LicenseJson) (hj : Option HealthJson)
    (rj : Option ReadmeJson) (mj : Option MetadataJson) :
    calculate_health now
      { pushed_at := some p, closed_issues := some c, open_issues := some o
        commits := some m, age_days := some a, stargazers_count := s
        has_workflows := w, has_tests := t, license := lic
        health := hj, readme := rj, metadata := mj } =
      some { activity_score := ((max 0 (100 - delta_days now p) : ℤ) : ℚ)
             issue_ratio := if 0 < o then (c : ℚ) / (o : ℚ) else 1
             commit_frequency := (m : ℚ) / (if a = 0 then (1 : ℚ) else (a : ℚ)) } := by
  by_cases hpos : 0 < o <;> simp [calculate_health, hpos]

/-- Counterexample to C6 as stated: with a negative age_days the divisor
stays negative, while the claimed formula divides by the maximum of
age_days and 1. -/
theorem commit_frequency_neg_age_cex :
    calculate_health 0 detail_neg_age ≠
      some { activity_score := 100, issue_ratio := 1
             commit_frequency := (30 : ℚ) / (max (-1 : ℚ) 1) } := by
  have hmax : (max (-1 : ℚ) 1) = 1 := max_eq_right (by norm_num)
  have hcalc : calculate_health 0 detail_neg_age =
      some { activity_score := 100, issue_ratio := 1, commit_frequency := -30 } := by
    simp [calculate_health, detail_neg_age, delta_days]
    norm_num
  rw [hcalc, hmax]
  simp only [ne_eq, Option.some.injEq, Health.mk.injEq, not_and]
  intro h1 h2
  norm_num

/-- C2 amended: calculate_score has no exception handler, so a record
missing the health, readme or metadata sub-object or the
stargazers_count key (as every raw detail endpoint response misses
the first three) makes the lookup error propagate to the caller
instead of being logged and turned into a zero score. -/
theorem calculate_score_missing_field_raises (repo : RepoJson)
    (h : repo.health = none ∨ repo.readme = none ∨ repo.metadata = none ∨
      repo.stargazers_count = none) :
    calculate_score repo = none := by
  unfold calculate_score
  simp only [Option.bind_eq_bind]
  rcases h with h | h | h | h
  · rw [show activity_component repo = none from by simp [activity_component, h]]; rfl
  · refine opt_bind_none _ _ (fun a => ?_)
    rw [show readability_component repo = none from by simp [readability_component, h]]; rfl
  · refine opt_bind_none _ _ (fun a => ?_)
    refine opt_bind_none _ _ (fun r => ?_)
    refine opt_bind_none _ _ (fun l => ?_)
    refine opt_bind_none _ _ (fun p => ?_)
    rw [show ci_cd_component repo = none from by simp [ci_cd_component, h]]; rfl
  · refine opt_bind_none _ _ (fun a => ?_)
    refine opt_bind_none _ _ (fun r => ?_)
    refine opt_bind_none _ _ (fun l => ?_)
    rw [show popularity_component repo = none from by simp [popularity_component, h]]; rfl

/-- Witness for C2 amended at a raw detail record lacking a health
sub-object. -/
theorem calculate_score_missing_field_raises_witness :
    calculate_score detail_no_health = none :=
  calculate_score_missing_field_raises detail_no_health (Or.inl rfl)

/-- Counterexample to C2 as stated: in a batch of two items whose first
detail record lacks the keys the Scorer needs, the error aborts the
whole search instead of scoring that item as 0 and keeping the second
item. -/
theorem missing_field_aborts_batch_cex :
    search_projects (some search_two) fetch_detail_mixed fetch_readme_404
      flesch0 text_standard0 0 = none := rfl

/-- Mapping a function over a list fails as soon as any element fails. -/
theorem mapM_eq_none_of_mem {α β : Type} (f : α → Option β) :
    ∀ (l : List α) (x : α), x ∈ l → f x = none → l.mapM f = none := by
  intro l
  induction l with
  | nil => intro x hx; cases hx
  | cons a as ih =>
    intro x hx hf
    rw [List.mapM_cons]
    rcases List.mem_cons.mp hx with h | h
    · rw [← h, hf]; rfl
    · cases hfa : f a with
      | none => rfl
      | some v =>
        simp only [Option.bind_eq_bind, Option.some_bind]
        rw [ih x h hf]; rfl

/-- C3 amended: the per item loop of search_projects has no exception
handler, so one item whose processing fails (a raising detail fetch, a
raising readme fetch, a missing key) aborts the whole batch: nothing
is returned for the other items. -/
theorem failing_item_aborts_batch (sj : SearchJson) (fd : String → Option RepoJson)
    (fr : String → Option Resp) (fl : String → ℚ) (ts : String → String) (now : ℤ)
    (item : ItemJson) (hmem : item ∈ (sj.items.getD []).take max_results)
    (hfail : _process_repo fd fr fl ts now item = none) :
    search_projects (some sj) fd fr fl ts now = none := by
  unfold search_projects
  simp only [Option.bind_eq_bind, Option.some_bind]
  rw [mapM_eq_none_of_mem _ _ item hmem hfail]
  rfl

/-- Witness for C3 amended: a batch of one item whose detail fetch
raises. -/
theorem failing_item_aborts_batch_witness :
    search_projects (some search_one) (fun _ => none) fetch_readme_404
      flesch0 text_standard0 0 = none :=
  failing_item_aborts_batch search_one (fun _ => none) fetch_readme_404 flesch0
    text_standard0 0 item_one (by simp [search_one, max_results]) rfl

/-- Counterexample to C3 as stated: the first of two items suffers a
detail fetch failure, and instead of degrading that item and returning
the second one, search_projects propagates the failure. -/
theorem fetch_failure_not_isolated_cex :
    search_projects (some search_two) fetch_detail_first_raises fetch_readme_404
      flesch0 text_standard0 0 = none := rfl

/-- C8 amended: when the README fetch completes with a non success
status, analyze_readme returns exactly the record with the existence
flag false and nothing else populated; but when the fetch itself
raises, the exception propagates out of analyze_readme. -/
theorem analyze_readme_non_success (fetch : String → Option Resp) (flesch : String → ℚ)
    (ts : String → String) (item : ItemJson) (fn : String) (resp : Resp)
    (h1 : item.full_name = some fn) (h2 : fetch (readme_url fn) = some resp)
    (h3 : resp.status_code ≠ 200) :
    analyze_readme fetch flesch ts item =
      some { readme_exists := some false, readability := none
             grade_level := none, sections := none } := by
  unfold analyze_readme
  simp only [Option.bind_eq_bind]
  rw [h1]
  simp only [Option.some_bind]
  rw [h2]
  simp only [Option.some_bind]
  rw [if_neg h3]
  rfl

/-- Witness for C8 amended at a concrete 404 response. -/
theorem analyze_readme_non_success_witness :
    analyze_readme fetch_readme_404 flesch0 text_standard0 item_one =
      some { readme_exists := some false, readability := none
             grade_level := none, sections := none } :=
  analyze_readme_non_success fetch_readme_404 flesch0 text_standard0 item_one
    "owner/one" { status_code := 404, text := "" } rfl rfl (by decide)

/-- Counterexample to C8 as stated: a README fetch that raises is not
turned into the existence flag false record; the exception
propagates. -/
theorem analyze_readme_fetch_raises_cex :
    analyze_readme fetch_readme_raise flesch0 text_standard0 item_one = none := rfl

/-- Transitivity of the boolean descending comparison on scores. -/
theorem score_ge_trans : ∀ (a b c : Enriched), score_ge a b → score_ge b c → score_ge a c := by
  intro a b c hab hbc
  simp only [score_ge, decide_eq_true_eq] at hab hbc ⊢
  exact le_trans hbc hab

/-- Totality of the boolean descending comparison on scores. -/
theorem score_ge_total : ∀ (a b : Enriched), score_ge a b || score_ge b a := by
  intro a b
  simp only [score_ge, Bool.or_eq_true, decide_eq_true_eq]
  exact le_total b.score a.score

/-- The sorted output is pairwise descending in score. -/
theorem sort_by_score_pairwise (l : List Enriched) :
    (sort_by_score l).Pairwise (fun a b => b.score ≤ a.score) := by
  have hs := List.sorted_mergeSort score_ge_trans score_ge_total l
  refine hs.imp ?_
  intro a b hab
  simp only [score_ge, decide_eq_true_eq] at hab
  exact hab

/-- The sorted output is a permutation of the input list. -/
theorem sort_by_score_perm (l : List Enriched) : (sort_by_score l).Perm l :=
  List.mergeSort_perm l score_ge

/-- Stability: a sublist with pairwise equal scores survives the sort. -/
theorem sort_by_score_stable (l c : List Enriched)
    (hc : c.Pairwise (fun a b => a.score = b.score)) (hsub : c.Sublist l) :
    c.Sublist (sort_by_score l) := by
  refine List.sublist_mergeSort score_ge_trans score_ge_total ?_ hsub
  refine hc.imp ?_
  intro a b hab
  simp only [score_ge, decide_eq_true_eq]
  exact le_of_eq hab.symm

/-- C9: whenever search_projects returns a list, that list is the stable
descending sort by score of the processed items: it is pairwise
descending in score, a permutation of the processed list, and any
run of items with equal scores keeps the relative order it had in the
fetched page. -/
theorem search_projects_sorted_stable (sj : SearchJson) (fd : String → Option RepoJson)
    (fr : String → Option Resp) (fl : String → ℚ) (ts : String → String) (now : ℤ)
    (out : List Enriched)
    (h : search_projects (some sj) fd fr fl ts now = some out) :
    ∃ processed,
      ((sj.items.getD []).take max_results).mapM (_process_repo fd fr fl ts now) =
        some processed
      ∧ out = sort_by_score processed
      ∧ out.Pairwise (fun a b => b.score ≤ a.score)
      ∧ out.Perm processed
      ∧ (∀ c : List Enriched, c.Pairwise (fun a b => a.score = b.score) →
          c.Sublist processed → c.Sublist out) := by
  unfold search_projects at h
  simp only [Option.bind_eq_bind, Option.some_bind, Option.bind_eq_some, Option.pure_def,
    Option.some.injEq] at h
  obtain ⟨processed, hm, hout⟩ := h
  subst hout
  exact ⟨processed, hm, rfl, sort_by_score_pairwise processed, sort_by_score_perm processed,
    fun c hc hsub => sort_by_score_stable processed c hc hsub⟩

/-- Witness for C9 at a search response with no items. -/
theorem search_projects_sorted_stable_witness :
    ∃ processed : List Enriched,
      ((({ items := none } : SearchJson).items.getD []).take max_results).mapM
        (_process_repo (fun _ => none) fetch_readme_raise flesch0 text_standard0 0) =
        some processed
      ∧ ([] : List Enriched) = sort_by_score processed
      ∧ List.Pairwise (fun a b : Enriched => b.score ≤ a.score) []
      ∧ List.Perm ([] : List Enriched) processed
      ∧ (∀ c : List Enriched, c.Pairwise (fun a b => a.score = b.score) →
          c.Sublist processed → c.Sublist []) :=
  search_projects_sorted_stable { items := none } (fun _ => none) fetch_readme_raise
    flesch0 text_standard0 0 []
    (by
      have h1 : ((({ items := none } : SearchJson).items.getD []).take max_results).mapM
          (_process_repo (fun _ => none) fetch_readme_raise flesch0 text_standard0 0) =
          some [] := rfl
      unfold search_projects
      simp only [Option.bind_eq_bind, Option.some_bind, h1]
      simp [sort_by_score])

/-- The natural logarithm of 100 exceeds 23 fifths. -/
theorem log_hundred_gt : (23 / 5 : ℝ) < Real.log 100 := by
  rw [Real.lt_log_iff_exp_lt (by norm_num : (0 : ℝ) < 100)]
  have h1 : Real.exp (23 / 5) ^ (5 : ℕ) = Real.exp 23 := by
    rw [← Real.exp_nat_mul]; norm_num
  have h2 : Real.exp 23 = Real.exp 1 ^ (23 : ℕ) := by
    rw [← Real.exp_nat_mul]; norm_num
  have h3 : Real.exp 1 ^ (23 : ℕ) < (2.7182818286 : ℝ) ^ (23 : ℕ) :=
    pow_lt_pow_left₀ Real.exp_one_lt_d9 (Real.exp_pos 1).le (by norm_num)
  have h4 : (2.7182818286 : ℝ) ^ (23 : ℕ) < (100 : ℝ) ^ (5 : ℕ) := by norm_num
  have h5 : Real.exp (23 / 5) ^ (5 : ℕ) < (100 : ℝ) ^ (5 : ℕ) := by
    rw [h1, h2]; exact h3.trans h4
  exact lt_of_pow_lt_pow_left₀ 5 (by norm_num) h5

/-- The natural logarithm of 100 is below 37 eighths. -/
theorem log_hundred_lt : Real.log 100 < 37 / 8 := by
  rw [Real.log_lt_iff_lt_exp (by norm_num : (0 : ℝ) < 100)]
  have h1 : Real.exp (37 / 8) ^ (8 : ℕ) = Real.exp 37 := by
    rw [← Real.exp_nat_mul]; norm_num
  have h2 : Real.exp 37 = Real.exp 1 ^ (37 : ℕ) := by
    rw [← Real.exp_nat_mul]; norm_num
  have h3 : (2.7182818283 : ℝ) ^ (37 : ℕ) < Real.exp 1 ^ (37 : ℕ) :=
    pow_lt_pow_left₀ Real.exp_one_gt_d9 (by norm_num) (by norm_num)
  have h4 : (100 : ℝ) ^ (8 : ℕ) < (2.7182818283 : ℝ) ^ (37 : ℕ) := by norm_num
  have h5 : (100 : ℝ) ^ (8 : ℕ) < Real.exp (37 / 8) ^ (8 : ℕ) := by
    rw [h1, h2]; exact h4.trans h3
  exact lt_of_pow_lt_pow_left₀ 8 (Real.exp_pos _).le h5

/-- C5: on the scenario input the health metrics are exactly as claimed,
but the pipeline itself crashes: the per item processing passes the
raw detail record to calculate_score, which looks up the absent
health key, so processing returns no score at all.  On the merged
record the specification intends the Scorer to receive, the
components are exactly as claimed and the final score equals
64 plus 6 times the natural logarithm of 100, which lies strictly
between 91.6 and 91.75. -/
theorem end_to_end_scenario :
    calculate_health now_scenario detail_scenario =
        some { activity_score := 90, issue_ratio := 1, commit_frequency := 1 }
    ∧ _process_repo (fun _ => some detail_scenario) fetch_readme_404 flesch0 text_standard0
        now_scenario item_scenario = none
    ∧ activity_component merged_scenario = some (9 / 10)
    ∧ readability_component merged_scenario = some (3 / 10)
    ∧ health_component merged_scenario = some 1
    ∧ popularity_component merged_scenario = some (Real.log 100 * (2 / 5))
    ∧ ci_cd_component merged_scenario = some 1
    ∧ calculate_score merged_scenario = some (64 + 6 * Real.log 100)
    ∧ (91.6 : ℝ) < 64 + 6 * Real.log 100
    ∧ (64 + 6 * Real.log 100 : ℝ) < 91.75 := by
  have hact : activity_component merged_scenario = some (9 / 10) := by
    simp [activity_component, merged_scenario]
    norm_num
  have hread : readability_component merged_scenario = some (3 / 10) := by
    simp [readability_component, merged_scenario]
    norm_num
  have hhl : health_component merged_scenario = some 1 := by
    simp [health_component, merged_scenario]
    norm_num
  have hpop : popularity_component merged_scenario = some (Real.log 100 * (2 / 5)) := by
    simp [popularity_component, merged_scenario]
    norm_num
  have hci : ci_cd_component merged_scenario = some 1 := by
    simp [ci_cd_component, merged_scenario]
  have hlo : (0 : ℝ) ≤ 64 + 6 * Real.log 100 := by
    have := log_hundred_gt
    linarith
  have hhi : (64 + 6 * Real.log 100 : ℝ) ≤ 100 := by
    have := log_hundred_lt
    linarith
  have hscore : calculate_score merged_scenario = some (64 + 6 * Real.log 100) := by
    have hstep : calculate_score merged_scenario =
        some (min (max ((64 + 6 * Real.log 100 : ℝ)) 0) 100) := by
      unfold calculate_score
      simp only [Option.bind_eq_bind]
      rw [hact]
      simp only [Option.some_bind]
      rw [hread]
      simp only [Option.some_bind]
      rw [hhl]
      simp only [Option.some_bind]
      rw [hpop]
      simp only [Option.some_bind]
      rw [hci]
      simp only [Option.some_bind]
      congr 1
      congr 1
      congr 1
      simp only [weight_activity, weight_readability, weight_health, weight_popularity,
        weight_ci_cd]
      push_cast
      ring
    rw [hstep, max_eq_left hlo, min_eq_left hhi]
  have hfd : delta_days now_scenario 0 = 10 := by decide
  refine ⟨?_, rfl, hact, hread, hhl, hpop, hci, hscore, ?_, ?_⟩
  · simp [calculate_health, detail_scenario, hfd]
    norm_num
  · have := log_hundred_gt
    norm_num
    linarith
  · have := log_hundred_lt
    norm_num
    linarith

/-- C10: a search response that parses but has no items key is treated as
an empty result page: search_projects returns the empty list. -/
theorem search_projects_missing_items_key (fd : String → Option RepoJson)
    (fr : String → Option Resp) (fl : String → ℚ) (ts : String → String) (now : ℤ) :
    search_projects (some { items := none }) fd fr fl ts now = some [] := by
  have h1 : ((({ items := none } : SearchJson).items.getD []).take max_results).mapM
      (_process_repo fd fr fl ts now) = some [] := rfl
  unfold search_projects
  simp only [Option.bind_eq_bind, Option.some_bind, h1]
  simp [sort_by_score]

end Hichem
